import Mathlib

set_option maxRecDepth 100000

/-!
Shallow embedding of the `nixpacks` CLI's Devenv provisioning pipeline
(`src/main.rs`): the pure config renderer `to_home_manager_nix`, the git
helpers `is_git_repo` / `get_git_remote_url`, and the `Commands::Devenv`
arm of `main`, modelled as an explicit step sequence over an environment
of success/failure flags with an observable event trace.
-/

namespace Nixpacks

/-- Substring search on character lists: does `needle` occur as a
contiguous infix of the second list?  Models Rust `str::contains`. -/
def charsContain (needle : List Char) : List Char → Bool
  | [] => needle.isEmpty
  | c :: rest => needle.isPrefixOf (c :: rest) || charsContain needle rest

/-- Rust `hay.contains(pat)`: `pat` occurs as a substring of `hay`. -/
def strContains (hay pat : String) : Bool :=
  charsContain pat.data hay.data

/-- The filter needle from `main.rs` line 402: `p.contains("npm")`. -/
def npmNeedle : String := "npm"

/-- The package identifiers surviving the renderer's filter
(`main.rs` line 402), in input order. -/
def keptPackages (packages : List String) : List String :=
  packages.filter (fun p => !(strContains p npmNeedle))

/-- The fixed preamble string literal of `to_home_manager_nix`
(`main.rs` lines 403-424), byte for byte. -/
def homeManagerPreamble : String :=
  "\n    \x7b config, pkgs, lib, ... \x7d:\n\n    \x7b\n"
  ++ "      # Home Manager needs a bit of information about you and the paths it should\n"
  ++ "      # manage.\n"
  ++ "      home.username = \"ubuntu\";\n"
  ++ "      home.homeDirectory = \"/home/ubuntu\";\n"
  ++ "    \n"
  ++ "      # This value determines the Home Manager release that your configuration is\n"
  ++ "      # compatible with. This helps avoid breakage when a new Home Manager release\n"
  ++ "      # introduces backwards incompatible changes.\n"
  ++ "      #\n"
  ++ "      # You should not change this value, even if you update Home Manager. If you do\n"
  ++ "      # want to update the value, then make sure to first check the Home Manager\n"
  ++ "      # release notes.\n"
  ++ "      home.stateVersion = \"23.05\"; # Please read the comment before changing.\n"
  ++ "    \n"
  ++ "      # The home.packages option allows you to install Nix packages into your\n"
  ++ "      # environment.\n"
  ++ "      home.packages = with pkgs; [ \n"

/-- The closing text appended after the loop (`main.rs` line 429). -/
def blockClose : String := "    ];\n\x7d\n"

/-- One rendered package line, as produced by
`format!("{}        {} \n", text, package)` (`main.rs` line 427). -/
def packageLine (p : String) : String := "        " ++ p ++ " \n"

/-- `to_home_manager_nix` (`main.rs` lines 400-432): filter the packages,
start from the fixed preamble, append one line per surviving package in
order, then append the closing text. -/
def to_home_manager_nix (packages : List String) : String :=
  let packages := keptPackages packages
  let text := packages.foldl (fun t p => t ++ packageLine p) homeManagerPreamble
  text ++ blockClose

/-- Concatenation of the rendered package lines, used to state what the
loop in `to_home_manager_nix` produces. -/
def linesConcat : List String → String
  | [] => ""
  | p :: rest => packageLine p ++ linesConcat rest

/-- Error result of `get_git_remote_url` (`main.rs` lines 388-397):
`Repository::open(path)?` fails when the repository cannot be opened;
`repo.find_remote("origin")?` fails when no remote named "origin" is
configured. -/
inductive GitErr where
  | openError
  | noOriginRemote
  deriving DecidableEq

/-- State of the outside world one Devenv invocation runs against: one
success flag per fallible call in `main.rs` lines 232-305, plus the local
git state the helpers at lines 383-397 read.  `keyContent` is the text of
the local private-key file; `originUrl` is `remote.url()` of the "origin"
remote (`none` models a URL that is not valid UTF-8). -/
structure Env where
  planOk : Bool
  tcpConnectOk : Bool
  sessionNewOk : Bool
  handshakeOk : Bool
  keyFileExists : Bool
  authOk : Bool
  scpConfigOk : Bool
  writeConfigOk : Bool
  channelInstallOk : Bool
  execInstallOk : Bool
  readInstallOk : Bool
  waitCloseInstallOk : Bool
  keyContent : String
  scpKeyOk : Bool
  writeKeyOk : Bool
  isGitRepo : Bool
  repoOpenOk : Bool
  hasOrigin : Bool
  originUrl : Option String
  channelCloneOk : Bool
  execCloneOk : Bool
  readCloneOk : Bool
  waitCloseCloneOk : Bool
  deriving DecidableEq

/-- Observable actions of the Devenv arm, recorded at the moment the call
is attempted.  `scpSend` carries the destination path, the permission
mode, and the byte length declared when opening the transfer; `writeAll`
carries the bytes subsequently written on that transfer. -/
inductive Event where
  | tcpConnect (addr : String)
  | handshake
  | authAttempt (user : String) (keyPath : String)
  | scpSend (dest : String) (mode : Nat) (declaredLen : Nat)
  | writeAll (bytes : String)
  | execCmd (cmd : String)
  | readLocalFile (path : String)
  | sessionClose
  deriving DecidableEq

/-- How one Devenv invocation ends.  `errReturned` models a `?` early
return of `Err` from `main`; `panicked` models an `.unwrap()` panic
aborting the process at the named call; `failedStep` is the structured
failure result the specification describes (failing step plus cause,
returned to the caller). -/
inductive Outcome where
  | ok
  | errReturned (step : String)
  | panicked (step : String)
  | failedStep (step : String) (cause : String)
  deriving DecidableEq

/-- `is_git_repo` (`main.rs` lines 383-386): whether `path/.git` exists. -/
def is_git_repo (e : Env) : Bool := e.isGitRepo

/-- `get_git_remote_url` (`main.rs` lines 388-397): open the repository,
find the remote called "origin", and return its URL, with
`remote.url().unwrap_or_default()` turning an unreadable URL into `""`. -/
def get_git_remote_url (e : Env) : Except GitErr String :=
  if !e.repoOpenOk then .error .openError
  else if !e.hasOrigin then .error .noOriginRemote
  else .ok (e.originUrl.getD "")

/-- Hardcoded local private-key path (`main.rs` line 249). -/
def keyPathStr : String := "/Users/robertwendt/.ssh/nixos"

/-- Remote destination of the rendered config (`main.rs` line 255). -/
def configDest : String := "/home/ubuntu/.config/home-manager/home.nix"

/-- Remote destination of the private key (`main.rs` line 275). -/
def keyDest : String := "/home/ubuntu/.ssh/id_rsa"

/-- The remote install command (`main.rs` line 263). -/
def installCmd : String := "nix-shell \x27<home-manager>\x27 -A install"

/-- The remote clone command (`main.rs` line 298):
`format!("git clone {}", git_remote_url)`. -/
def cloneCmd (url : String) : String := "git clone " ++ url

/-- The `Commands::Devenv` arm of `main` (`main.rs` lines 232-305), as a
function from the environment and the CLI inputs to the final outcome and
the ordered trace of attempted observable actions.  `packages` stands for
`plan.get_packages()` of the externally generated build plan.  Each
`.unwrap()` of the source is modelled by a flag test ending the run in
`Outcome.panicked` with the name of the failing call; the early
`return Ok(())` for a non-repository path ends the run in `Outcome.ok`. -/
def devenvRun (e : Env) (packages : List String) (hostname : String) :
    Outcome × List Event :=
  if !e.planOk then (.errReturned ("generate_build_plan"), [])
  else
    let cfg := to_home_manager_nix packages
    if !e.tcpConnectOk then
      (.panicked ("TcpStream::connect"), [.tcpConnect (hostname ++ ":22")])
    else if !e.sessionNewOk then
      (.panicked ("Session::new"), [.tcpConnect (hostname ++ ":22")])
    else if !e.handshakeOk then
      (.panicked ("handshake"), [.tcpConnect (hostname ++ ":22"), .handshake])
    else if !(e.keyFileExists && e.authOk) then
      (.panicked ("userauth_pubkey_file"),
        [.tcpConnect (hostname ++ ":22"), .handshake,
         .authAttempt ("root") keyPathStr])
    else if !e.scpConfigOk then
      (.panicked ("scp_send config"),
        [.tcpConnect (hostname ++ ":22"), .handshake,
         .authAttempt ("root") keyPathStr,
         .scpSend configDest 0o644 cfg.utf8ByteSize])
    else if !e.writeConfigOk then
      (.panicked ("write_all config"),
        [.tcpConnect (hostname ++ ":22"), .handshake,
         .authAttempt ("root") keyPathStr,
         .scpSend configDest 0o644 cfg.utf8ByteSize, .writeAll cfg])
    else if !e.channelInstallOk then
      (.panicked ("channel_session install"),
        [.tcpConnect (hostname ++ ":22"), .handshake,
         .authAttempt ("root") keyPathStr,
         .scpSend configDest 0o644 cfg.utf8ByteSize, .writeAll cfg])
    else if !e.execInstallOk then
      (.panicked ("exec install"),
        [.tcpConnect (hostname ++ ":22"), .handshake,
         .authAttempt ("root") keyPathStr,
         .scpSend configDest 0o644 cfg.utf8ByteSize, .writeAll cfg,
         .execCmd installCmd])
    else if !e.readInstallOk then
      (.panicked ("read_to_string install"),
        [.tcpConnect (hostname ++ ":22"), .handshake,
         .authAttempt ("root") keyPathStr,
         .scpSend configDest 0o644 cfg.utf8ByteSize, .writeAll cfg,
         .execCmd installCmd])
    else if !e.waitCloseInstallOk then
      (.panicked ("wait_close install"),
        [.tcpConnect (hostname ++ ":22"), .handshake,
         .authAttempt ("root") keyPathStr,
         .scpSend configDest 0o644 cfg.utf8ByteSize, .writeAll cfg,
         .execCmd installCmd])
    else if !e.keyFileExists then
      (.panicked ("File::open key"),
        [.tcpConnect (hostname ++ ":22"), .handshake,
         .authAttempt ("root") keyPathStr,
         .scpSend configDest 0o644 cfg.utf8ByteSize, .writeAll cfg,
         .execCmd installCmd, .readLocalFile keyPathStr])
    else if !e.scpKeyOk then
      (.panicked ("scp_send key"),
        [.tcpConnect (hostname ++ ":22"), .handshake,
         .authAttempt ("root") keyPathStr,
         .scpSend configDest 0o644 cfg.utf8ByteSize, .writeAll cfg,
         .execCmd installCmd, .readLocalFile keyPathStr,
         .scpSend keyDest 0o644 e.keyContent.utf8ByteSize])
    else if !e.writeKeyOk then
      (.panicked ("write_all key"),
        [.tcpConnect (hostname ++ ":22"), .handshake,
         .authAttempt ("root") keyPathStr,
         .scpSend configDest 0o644 cfg.utf8ByteSize, .writeAll cfg,
         .execCmd installCmd, .readLocalFile keyPathStr,
         .scpSend keyDest 0o644 e.keyContent.utf8ByteSize,
         .writeAll e.keyContent])
    else if !(is_git_repo e) then
      (.ok,
        [.tcpConnect (hostname ++ ":22"), .handshake,
         .authAttempt ("root") keyPathStr,
         .scpSend configDest 0o644 cfg.utf8ByteSize, .writeAll cfg,
         .execCmd installCmd, .readLocalFile keyPathStr,
         .scpSend keyDest 0o644 e.keyContent.utf8ByteSize,
         .writeAll e.keyContent])
    else
      match get_git_remote_url e with
      | .error _ =>
        (.panicked ("get_git_remote_url"),
          [.tcpConnect (hostname ++ ":22"), .handshake,
           .authAttempt ("root") keyPathStr,
           .scpSend configDest 0o644 cfg.utf8ByteSize, .writeAll cfg,
           .execCmd installCmd, .readLocalFile keyPathStr,
           .scpSend keyDest 0o644 e.keyContent.utf8ByteSize,
           .writeAll e.keyContent])
      | .ok url =>
        if !e.channelCloneOk then
          (.panicked ("channel_session clone"),
            [.tcpConnect (hostname ++ ":22"), .handshake,
             .authAttempt ("root") keyPathStr,
             .scpSend configDest 0o644 cfg.utf8ByteSize, .writeAll cfg,
             .execCmd installCmd, .readLocalFile keyPathStr,
             .scpSend keyDest 0o644 e.keyContent.utf8ByteSize,
             .writeAll e.keyContent])
        else if !e.execCloneOk then
          (.panicked ("exec clone"),
            [.tcpConnect (hostname ++ ":22"), .handshake,
             .authAttempt ("root") keyPathStr,
             .scpSend configDest 0o644 cfg.utf8ByteSize, .writeAll cfg,
             .execCmd installCmd, .readLocalFile keyPathStr,
             .scpSend keyDest 0o644 e.keyContent.utf8ByteSize,
             .writeAll e.keyContent, .execCmd (cloneCmd url)])
        else if !e.readCloneOk then
          (.panicked ("read_to_string clone"),
            [.tcpConnect (hostname ++ ":22"), .handshake,
             .authAttempt ("root") keyPathStr,
             .scpSend configDest 0o644 cfg.utf8ByteSize, .writeAll cfg,
             .execCmd installCmd, .readLocalFile keyPathStr,
             .scpSend keyDest 0o644 e.keyContent.utf8ByteSize,
             .writeAll e.keyContent, .execCmd (cloneCmd url)])
        else if !e.waitCloseCloneOk then
          (.panicked ("wait_close clone"),
            [.tcpConnect (hostname ++ ":22"), .handshake,
             .authAttempt ("root") keyPathStr,
             .scpSend configDest 0o644 cfg.utf8ByteSize, .writeAll cfg,
             .execCmd installCmd, .readLocalFile keyPathStr,
             .scpSend keyDest 0o644 e.keyContent.utf8ByteSize,
             .writeAll e.keyContent, .execCmd (cloneCmd url)])
        else
          (.ok,
            [.tcpConnect (hostname ++ ":22"), .handshake,
             .authAttempt ("root") keyPathStr,
             .scpSend configDest 0o644 cfg.utf8ByteSize, .writeAll cfg,
             .execCmd installCmd, .readLocalFile keyPathStr,
             .scpSend keyDest 0o644 e.keyContent.utf8ByteSize,
             .writeAll e.keyContent, .execCmd (cloneCmd url)])

/-- All flags up to and including the key upload are true: the run, if it
gets that far, has completed every step before the git check. -/
def preGitOk (e : Env) : Bool :=
  e.planOk && (e.tcpConnectOk && (e.sessionNewOk && (e.handshakeOk &&
  (e.keyFileExists && (e.authOk && (e.scpConfigOk && (e.writeConfigOk &&
  (e.channelInstallOk && (e.execInstallOk && (e.readInstallOk &&
  (e.waitCloseInstallOk && (e.scpKeyOk && e.writeKeyOk))))))))))))

/-- Every `scpSend` that is followed by its `writeAll` declared exactly
the byte length of the bytes written, and every `writeAll` is the payload
of the `scpSend` immediately before it. -/
def scpLengthsOk : List Event → Bool
  | .scpSend _ _ n :: .writeAll b :: rest =>
      (n == b.utf8ByteSize) && scpLengthsOk rest
  | .writeAll _ :: _ => false
  | _ :: rest => scpLengthsOk rest
  | [] => true

/-- A fully nominal environment: every call succeeds, the local path is a
repository whose "origin" remote is `git@example.com:org/app.git`. -/
def envAllOk : Env :=
  { planOk := true, tcpConnectOk := true, sessionNewOk := true, handshakeOk := true,
    keyFileExists := true, authOk := true, scpConfigOk := true, writeConfigOk := true,
    channelInstallOk := true, execInstallOk := true, readInstallOk := true,
    waitCloseInstallOk := true, keyContent := "KEYDATA", scpKeyOk := true, writeKeyOk := true,
    isGitRepo := true, repoOpenOk := true, hasOrigin := true,
    originUrl := some ("git@example.com:org/app.git"), channelCloneOk := true,
    execCloneOk := true, readCloneOk := true, waitCloseCloneOk := true }

/-- Nominal environment except the config `scp_send` fails. -/
def envScpFail : Env := { envAllOk with scpConfigOk := false }

/-- Nominal environment except the local private-key file is absent. -/
def envNoKey : Env := { envAllOk with keyFileExists := false }

/-- Nominal environment except the repository has no "origin" remote. -/
def envNoOrigin : Env := { envAllOk with hasOrigin := false }

/-- Nominal environment except the local path is not a repository. -/
def envNoRepo : Env := { envAllOk with isGitRepo := false }

theorem foldl_packageLine (l : List String) (init : String) :
    l.foldl (fun t p => t ++ packageLine p) init = init ++ linesConcat l := by
  induction l generalizing init with
  | nil => simp [linesConcat, String.append_empty]
  | cons p rest ih => simp [linesConcat, ih, String.append_assoc]

theorem to_home_manager_nix_eq (packages : List String) :
    to_home_manager_nix packages =
      homeManagerPreamble ++ linesConcat (keptPackages packages) ++ blockClose := by
  simp [to_home_manager_nix, foldl_packageLine]

/-- Claim C1: the renderer removes every identifier recognized as
foreign-ecosystem-managed (those containing the filter needle) and emits
the remaining identifiers one per line in input order; in particular
`["nodejs","npm-cli-tool","python3"]` renders a block of exactly
`nodejs` then `python3`, and `["foo","npm:left-pad","bar"]` renders a
block of exactly `foo` then `bar`. -/
theorem c1_filter_removes_npm_keeps_order :
    (∀ packages : List String,
        (keptPackages packages).all (fun p => !(strContains p npmNeedle)) = true
        ∧ (keptPackages packages).Sublist packages
        ∧ to_home_manager_nix packages =
            homeManagerPreamble ++ linesConcat (keptPackages packages) ++ blockClose)
    ∧ keptPackages ["nodejs", "npm-cli-tool", "python3"] = ["nodejs", "python3"]
    ∧ to_home_manager_nix ["nodejs", "npm-cli-tool", "python3"] =
        homeManagerPreamble ++ linesConcat ["nodejs", "python3"] ++ blockClose
    ∧ keptPackages ["foo", "npm:left-pad", "bar"] = ["foo", "bar"]
    ∧ to_home_manager_nix ["foo", "npm:left-pad", "bar"] =
        homeManagerPreamble ++ linesConcat ["foo", "bar"] ++ blockClose := by
  refine ⟨fun packages => ⟨?_, ?_, to_home_manager_nix_eq packages⟩,
    by decide, ?_, by decide, ?_⟩
  · simp [keptPackages, List.all_eq_true, List.mem_filter]
  · exact List.filter_sublist packages
  · rw [to_home_manager_nix_eq,
      show keptPackages ["nodejs", "npm-cli-tool", "python3"] = ["nodejs", "python3"] from by decide]
  · rw [to_home_manager_nix_eq,
      show keptPackages ["foo", "npm:left-pad", "bar"] = ["foo", "bar"] from by decide]

/-- Claim C8: the renderer is deterministic — equal input package lists
render to byte-identical configuration text. -/
theorem c8_renderer_deterministic (p₁ p₂ : List String) (h : p₁ = p₂) :
    to_home_manager_nix p₁ = to_home_manager_nix p₂ := by rw [h]

theorem c8_witness :
    to_home_manager_nix ["nodejs", "python3"] = to_home_manager_nix ["nodejs", "python3"] :=
  c8_renderer_deterministic ["nodejs", "python3"] ["nodejs", "python3"] rfl

/-- Claim C9: the empty package list renders a syntactically complete
document: the fixed preamble (username, home directory, state-version
tag) followed by the package block's open and close markers with no
package lines between them. -/
theorem c9_empty_list_complete_document :
    to_home_manager_nix [] = homeManagerPreamble ++ blockClose
    ∧ strContains homeManagerPreamble ("home.username = \"ubuntu\"") = true
    ∧ strContains homeManagerPreamble ("home.homeDirectory = \"/home/ubuntu\"") = true
    ∧ strContains homeManagerPreamble ("home.stateVersion = \"23.05\"") = true
    ∧ strContains (to_home_manager_nix [])
        ("home.packages = with pkgs; [ \n    ];\n\x7d\n") = true := by
  refine ⟨?_, by decide, by decide, by decide, by decide⟩
  rw [to_home_manager_nix_eq]
  simp [keptPackages, linesConcat, String.append_empty]

/-- Claim C10: the renderer's filter is substring containment — an
identifier is kept in the rendered block iff the needle does not occur
anywhere inside it, so an identifier merely containing it (such as
`pnpm`) is removed. -/
theorem c10_filter_is_substring_containment :
    (∀ (p : String) (packages : List String),
        p ∈ keptPackages packages ↔ (p ∈ packages ∧ strContains p npmNeedle = false))
    ∧ strContains ("pnpm") npmNeedle = true
    ∧ keptPackages ["pnpm"] = [] := by
  refine ⟨?_, by decide, by decide⟩
  intro p packages
  simp [keptPackages, List.mem_filter]

theorem devenvRun_invariants (e : Env) (packages : List String) (hostname : String) :
    (∀ s c, (devenvRun e packages hostname).1 ≠ .failedStep s c)
    ∧ Event.sessionClose ∉ (devenvRun e packages hostname).2
    ∧ scpLengthsOk (devenvRun e packages hostname).2 = true
    ∧ (∀ c, Event.execCmd c ∈ (devenvRun e packages hostname).2 →
        c = installCmd
        ∨ (e.isGitRepo = true ∧ ∃ u, get_git_remote_url e = Except.ok u ∧ c = cloneCmd u))
    ∧ (e.planOk = true →
        (devenvRun e packages hostname).1 = .ok
        ∨ ∃ s, (devenvRun e packages hostname).1 = .panicked s) := by
  cases hplan : e.planOk with
  | false => simp [devenvRun, scpLengthsOk, hplan]
  | true =>
  cases htcp : e.tcpConnectOk with
  | false => simp [devenvRun, scpLengthsOk, hplan, htcp]
  | true =>
  cases hsess : e.sessionNewOk with
  | false => simp [devenvRun, scpLengthsOk, hplan, htcp, hsess]
  | true =>
  cases hhs : e.handshakeOk with
  | false => simp [devenvRun, scpLengthsOk, hplan, htcp, hsess, hhs]
  | true =>
  cases hkf : e.keyFileExists with
  | false => simp [devenvRun, scpLengthsOk, hplan, htcp, hsess, hhs, hkf]
  | true =>
  cases hao : e.authOk with
  | false => simp [devenvRun, scpLengthsOk, hplan, htcp, hsess, hhs, hkf, hao]
  | true =>
  cases hscpc : e.scpConfigOk with
  | false => simp [devenvRun, scpLengthsOk, hplan, htcp, hsess, hhs, hkf, hao, hscpc]
  | true =>
  cases hwrc : e.writeConfigOk with
  | false => simp [devenvRun, scpLengthsOk, hplan, htcp, hsess, hhs, hkf, hao, hscpc, hwrc]
  | true =>
  cases hchi : e.channelInstallOk with
  | false =>
    simp [devenvRun, scpLengthsOk, hplan, htcp, hsess, hhs, hkf, hao, hscpc, hwrc, hchi]
  | true =>
  cases hexi : e.execInstallOk with
  | false =>
    simp [devenvRun, scpLengthsOk, hplan, htcp, hsess, hhs, hkf, hao, hscpc, hwrc, hchi,
      hexi]
  | true =>
  cases hrdi : e.readInstallOk with
  | false =>
    simp [devenvRun, scpLengthsOk, hplan, htcp, hsess, hhs, hkf, hao, hscpc, hwrc, hchi,
      hexi, hrdi]
  | true =>
  cases hwci : e.waitCloseInstallOk with
  | false =>
    simp [devenvRun, scpLengthsOk, hplan, htcp, hsess, hhs, hkf, hao, hscpc, hwrc, hchi,
      hexi, hrdi, hwci]
  | true =>
  cases hscpk : e.scpKeyOk with
  | false =>
    simp [devenvRun, scpLengthsOk, hplan, htcp, hsess, hhs, hkf, hao, hscpc, hwrc, hchi,
      hexi, hrdi, hwci, hscpk]
  | true =>
  cases hwrk : e.writeKeyOk with
  | false =>
    simp [devenvRun, scpLengthsOk, hplan, htcp, hsess, hhs, hkf, hao, hscpc, hwrc, hchi,
      hexi, hrdi, hwci, hscpk, hwrk]
  | true =>
  cases hrepo : e.isGitRepo with
  | false =>
    simp [devenvRun, scpLengthsOk, is_git_repo, hplan, htcp, hsess, hhs, hkf, hao, hscpc,
      hwrc, hchi, hexi, hrdi, hwci, hscpk, hwrk, hrepo]
  | true =>
  cases hg : get_git_remote_url e with
  | error err =>
    simp [devenvRun, scpLengthsOk, is_git_repo, hplan, htcp, hsess, hhs, hkf, hao, hscpc,
      hwrc, hchi, hexi, hrdi, hwci, hscpk, hwrk, hrepo, hg]
  | ok url =>
  cases hchc : e.channelCloneOk with
  | false =>
    simp [devenvRun, scpLengthsOk, is_git_repo, hplan, htcp, hsess, hhs, hkf, hao, hscpc,
      hwrc, hchi, hexi, hrdi, hwci, hscpk, hwrk, hrepo, hg, hchc]
  | true =>
  cases hexc : e.execCloneOk with
  | false =>
    simp [devenvRun, scpLengthsOk, is_git_repo, hplan, htcp, hsess, hhs, hkf, hao, hscpc,
      hwrc, hchi, hexi, hrdi, hwci, hscpk, hwrk, hrepo, hg, hchc, hexc]
  | true =>
  cases hrdc : e.readCloneOk with
  | false =>
    simp [devenvRun, scpLengthsOk, is_git_repo, hplan, htcp, hsess, hhs, hkf, hao, hscpc,
      hwrc, hchi, hexi, hrdi, hwci, hscpk, hwrk, hrepo, hg, hchc, hexc, hrdc]
  | true =>
  cases hwcc : e.waitCloseCloneOk with
  | false =>
    simp [devenvRun, scpLengthsOk, is_git_repo, hplan, htcp, hsess, hhs, hkf, hao, hscpc,
      hwrc, hchi, hexi, hrdi, hwci, hscpk, hwrk, hrepo, hg, hchc, hexc, hrdc, hwcc]
  | true =>
    simp [devenvRun, scpLengthsOk, is_git_repo, hplan, htcp, hsess, hhs, hkf, hao, hscpc,
      hwrc, hchi, hexi, hrdi, hwci, hscpk, hwrk, hrepo, hg, hchc, hexc, hrdc, hwcc]

/-- Claim C7: for every file transfer the run performs, the byte length
declared when opening the transfer equals the byte length of the bytes
subsequently written on it, in every environment; no mismatching transfer
is ever sent. -/
theorem c7_scp_declared_length_matches (e : Env) (packages : List String)
    (hostname : String) :
    scpLengthsOk (devenvRun e packages hostname).2 = true :=
  (devenvRun_invariants e packages hostname).2.2.1

/-- Claim C3 as amended: the run never produces a structured
`failedStep` result and never performs an explicit session close on any
exit path; once the build plan has been generated, every failing step
aborts the process with a panic naming the failing call instead of
returning a failure to the caller. -/
theorem c3_run_aborts_without_close (e : Env) (packages : List String)
    (hostname : String) :
    (∀ s c, (devenvRun e packages hostname).1 ≠ .failedStep s c)
    ∧ Event.sessionClose ∉ (devenvRun e packages hostname).2
    ∧ (e.planOk = true →
        (devenvRun e packages hostname).1 = .ok
        ∨ ∃ s, (devenvRun e packages hostname).1 = .panicked s) := by
  exact ⟨(devenvRun_invariants e packages hostname).1,
    (devenvRun_invariants e packages hostname).2.1,
    (devenvRun_invariants e packages hostname).2.2.2.2⟩

theorem c3_witness :
    envAllOk.planOk = true
    ∧ ((devenvRun envAllOk ["python3"] "203.0.113.7").1 = .ok
        ∨ ∃ s, (devenvRun envAllOk ["python3"] "203.0.113.7").1 = .panicked s) :=
  ⟨by decide,
    (c3_run_aborts_without_close envAllOk ["python3"] "203.0.113.7").2.2 (by decide)⟩

/-- Claim C3 as stated is false: with every call nominal except the
config transfer, the step failure after the session is opened ends the
run in a process-aborting panic, not a structured `failedStep` result
returned to the caller, and no exit path records a session close. -/
theorem c3_counterexample :
    (devenvRun envScpFail ["python3"] "203.0.113.7").1 = .panicked ("scp_send config")
    ∧ (∀ s c, (devenvRun envScpFail ["python3"] "203.0.113.7").1 ≠ .failedStep s c)
    ∧ Event.sessionClose ∉ (devenvRun envScpFail ["python3"] "203.0.113.7").2 := by
  refine ⟨by decide, ?_, by decide⟩
  intro s c
  rw [show (devenvRun envScpFail ["python3"] "203.0.113.7").1 =
      .panicked ("scp_send config") from by decide]
  simp

/-- Claim C2: when the local path is a repository that has no "origin"
remote, `get_git_remote_url` returns the explicit no-origin error (never
a plain empty string), and the run fails at that call before any clone
command is issued. -/
theorem c2_no_origin_fails_before_clone (e : Env) (packages : List String)
    (hostname : String) (hpre : preGitOk e = true) (hrepo : e.isGitRepo = true)
    (hopen : e.repoOpenOk = true) (horigin : e.hasOrigin = false) :
    get_git_remote_url e = .error .noOriginRemote
    ∧ (∀ s, get_git_remote_url e ≠ .ok s)
    ∧ (devenvRun e packages hostname).1 = .panicked ("get_git_remote_url")
    ∧ (∀ c, Event.execCmd c ∈ (devenvRun e packages hostname).2 → c = installCmd) := by
  have hg : get_git_remote_url e = .error .noOriginRemote := by
    simp [get_git_remote_url, hopen, horigin]
  simp only [preGitOk, Bool.and_eq_true] at hpre
  obtain ⟨h1, h2, h3, h4, h5, h6, h7, h8, h9, h10, h11, h12, h13, h14⟩ := hpre
  refine ⟨hg, ?_, ?_, ?_⟩
  · intro s
    rw [hg]
    simp
  · simp [devenvRun, is_git_repo, h1, h2, h3, h4, h5, h6, h7, h8, h9, h10, h11, h12,
      h13, h14, hrepo, hg]
  · intro c hc
    rcases (devenvRun_invariants e packages hostname).2.2.2.1 c hc with h | ⟨_, u, hu, _⟩
    · exact h
    · rw [hg] at hu
      exact absurd hu (by simp)

theorem c2_witness :
    preGitOk envNoOrigin = true ∧ envNoOrigin.isGitRepo = true
    ∧ envNoOrigin.repoOpenOk = true ∧ envNoOrigin.hasOrigin = false
    ∧ get_git_remote_url envNoOrigin = .error .noOriginRemote
    ∧ (devenvRun envNoOrigin ["python3"] "203.0.113.7").1 = .panicked ("get_git_remote_url") :=
  ⟨by decide, by decide, by decide, by decide,
    (c2_no_origin_fails_before_clone envNoOrigin ["python3"] "203.0.113.7"
      (by decide) (by decide) (by decide) (by decide)).1,
    (c2_no_origin_fails_before_clone envNoOrigin ["python3"] "203.0.113.7"
      (by decide) (by decide) (by decide) (by decide)).2.2.1⟩

/-- Claim C4 as stated is false: with the credential file absent and all
transport calls nominal, the run still attempts the TCP connect, the
handshake, and the authentication call. -/
theorem c4_counterexample :
    envNoKey.keyFileExists = false
    ∧ Event.tcpConnect ("203.0.113.7:22") ∈ (devenvRun envNoKey ["python3"] "203.0.113.7").2
    ∧ Event.handshake ∈ (devenvRun envNoKey ["python3"] "203.0.113.7").2
    ∧ Event.authAttempt ("root") keyPathStr
        ∈ (devenvRun envNoKey ["python3"] "203.0.113.7").2 := by
  decide

/-- Claim C4 as amended: a missing credential file is detected only at
the authentication step — the TCP connect and handshake are attempted
first — and the run then aborts at `userauth_pubkey_file`, so no upload
or remote command is ever attempted. -/
theorem c4_missing_key_fails_at_auth (e : Env) (packages : List String)
    (hostname : String) (hkey : e.keyFileExists = false) (hplan : e.planOk = true)
    (htcp : e.tcpConnectOk = true) (hsess : e.sessionNewOk = true)
    (hhs : e.handshakeOk = true) :
    (devenvRun e packages hostname).1 = .panicked ("userauth_pubkey_file")
    ∧ (devenvRun e packages hostname).2 =
        [.tcpConnect (hostname ++ ":22"), .handshake, .authAttempt ("root") keyPathStr] := by
  constructor <;> simp [devenvRun, hkey, hplan, htcp, hsess, hhs]

theorem c4_witness :
    envNoKey.keyFileExists = false ∧ envNoKey.planOk = true
    ∧ (devenvRun envNoKey ["python3"] "203.0.113.7").1 = .panicked ("userauth_pubkey_file") :=
  ⟨by decide, by decide,
    (c4_missing_key_fails_at_auth envNoKey ["python3"] "203.0.113.7"
      (by decide) (by decide) (by decide) (by decide) (by decide)).1⟩

/-- Claim C5: when the local path is not a repository, no clone command
is ever issued (the only command ever executed is the install command),
and if every step before the git check succeeds the run terminates
successfully via the early return. -/
theorem c5_no_repo_skips_clone (e : Env) (packages : List String) (hostname : String)
    (hrepo : e.isGitRepo = false) :
    (∀ c, Event.execCmd c ∈ (devenvRun e packages hostname).2 → c = installCmd)
    ∧ (preGitOk e = true → (devenvRun e packages hostname).1 = .ok) := by
  constructor
  · intro c hc
    rcases (devenvRun_invariants e packages hostname).2.2.2.1 c hc with h | ⟨h, _⟩
    · exact h
    · rw [hrepo] at h
      exact absurd h (by simp)
  · intro hpre
    simp only [preGitOk, Bool.and_eq_true] at hpre
    obtain ⟨h1, h2, h3, h4, h5, h6, h7, h8, h9, h10, h11, h12, h13, h14⟩ := hpre
    simp [devenvRun, is_git_repo, h1, h2, h3, h4, h5, h6, h7, h8, h9, h10, h11, h12,
      h13, h14, hrepo]

theorem c5_witness :
    envNoRepo.isGitRepo = false ∧ preGitOk envNoRepo = true
    ∧ (devenvRun envNoRepo ["python3"] "203.0.113.7").1 = .ok :=
  ⟨by decide, by decide,
    (c5_no_repo_skips_clone envNoRepo ["python3"] "203.0.113.7" (by decide)).2 (by decide)⟩

/-- Claim C6: when the local path is a repository whose "origin" remote
has URL `u`, the remote clone command issued over the session is exactly
`git clone u`, and no other clone command is issued. -/
theorem c6_clone_uses_exact_origin_url (e : Env) (packages : List String)
    (hostname : String) (u : String) (hpre : preGitOk e = true)
    (hrepo : e.isGitRepo = true) (hopen : e.repoOpenOk = true)
    (horigin : e.hasOrigin = true) (hurl : e.originUrl = some u)
    (hchan : e.channelCloneOk = true) :
    Event.execCmd (cloneCmd u) ∈ (devenvRun e packages hostname).2
    ∧ (∀ c, Event.execCmd c ∈ (devenvRun e packages hostname).2 →
        c = installCmd ∨ c = cloneCmd u) := by
  have hg : get_git_remote_url e = .ok u := by
    simp [get_git_remote_url, hopen, horigin, hurl]
  constructor
  · simp only [preGitOk, Bool.and_eq_true] at hpre
    obtain ⟨h1, h2, h3, h4, h5, h6, h7, h8, h9, h10, h11, h12, h13, h14⟩ := hpre
    cases hexc : e.execCloneOk with
    | false =>
      simp [devenvRun, is_git_repo, h1, h2, h3, h4, h5, h6, h7, h8, h9, h10, h11, h12,
        h13, h14, hrepo, hg, hchan, hexc]
    | true =>
    cases hrdc : e.readCloneOk with
    | false =>
      simp [devenvRun, is_git_repo, h1, h2, h3, h4, h5, h6, h7, h8, h9, h10, h11, h12,
        h13, h14, hrepo, hg, hchan, hexc, hrdc]
    | true =>
    cases hwcc : e.waitCloseCloneOk with
    | false =>
      simp [devenvRun, is_git_repo, h1, h2, h3, h4, h5, h6, h7, h8, h9, h10, h11, h12,
        h13, h14, hrepo, hg, hchan, hexc, hrdc, hwcc]
    | true =>
      simp [devenvRun, is_git_repo, h1, h2, h3, h4, h5, h6, h7, h8, h9, h10, h11, h12,
        h13, h14, hrepo, hg, hchan, hexc, hrdc, hwcc]
  · intro c hc
    rcases (devenvRun_invariants e packages hostname).2.2.2.1 c hc with h | ⟨_, v, hv, hcv⟩
    · exact Or.inl h
    · rw [hg] at hv
      injection hv with hv
      subst hv
      exact Or.inr hcv

theorem c6_witness :
    preGitOk envAllOk = true ∧ envAllOk.isGitRepo = true ∧ envAllOk.repoOpenOk = true
    ∧ envAllOk.hasOrigin = true ∧ envAllOk.originUrl = some ("git@example.com:org/app.git")
    ∧ envAllOk.channelCloneOk = true
    ∧ Event.execCmd (cloneCmd ("git@example.com:org/app.git"))
        ∈ (devenvRun envAllOk ["python3"] "203.0.113.7").2 :=
  ⟨by decide, by decide, by decide, by decide, by decide, by decide,
    (c6_clone_uses_exact_origin_url envAllOk ["python3"] "203.0.113.7"
      ("git@example.com:org/app.git") (by decide) (by decide) (by decide) (by decide)
      (by decide) (by decide)).1⟩

end Nixpacks
